import Mathlib

/-!
# Interaction state machine of the document-chat client (`frontend/src/App.jsx`)

The React component `App` is embedded as explicit state passing.

* `State` holds the nine `useState` cells of the component (lines 12-23) and the part of
  the browser environment the handlers touch: requests in flight, alerts, console,
  clipboard, the speech-synthesis utterance queue, the timer list and a millisecond clock.
* A synchronous handler is a function `State → State`, or `State → Except String State`
  where a line of it can throw (a member access on a capability the host lacks).
* An `async` handler is split at its single `await`: the function bearing the source name
  is the part that runs up to the `await` (it records the request in `inflight`), and the
  function with suffix `_resume` is the part that runs once the request has settled
  (`try` body after the `await`, `catch`, `finally`).
* `step` dispatches one event (user action, network completion, speech callback, passage of
  time) as the JSX wires it, including the `disabled` attributes and the conditional
  rendering of controls.

JavaScript strings are modelled by `String`; `null` by `none`.
-/

namespace App

/-! ## Data model -/

/-- The `type` field of a message object: `'user'` or `'ai'`. -/
inductive MsgType where
  | user
  | ai
deriving DecidableEq, Repr

/-- A chat message `{ type, text }`. -/
structure Message where
  type : MsgType
  text : String
deriving DecidableEq, Repr

/-- An entry of `res.data.documents`: `{ filename, date }`. -/
structure Document where
  filename : String
  date : String
deriving DecidableEq, Repr

/-- A browser `File`; only its `name` is read by the component. -/
structure File where
  name : String
deriving DecidableEq, Repr

/-- The HTTP requests the component issues through `axios`. -/
inductive Request where
  | history
  | documents
  | upload (selectedFile : File)
  | query (question : String)
  | summarize
  | clear
deriving DecidableEq, Repr

/-- How a request settles: `error` is a rejected promise (non-2xx status or network
exception), the other constructors are the success bodies of the endpoints. -/
inductive Response where
  | error
  | history (history : List Message)
  | documents (documents : List Document)
  | answer (answer : String)
  | summary (summary : String)
  | ok
deriving DecidableEq, Repr

/-- A `SpeechSynthesisUtterance` held by `window.speechSynthesis`; `started` records
whether the platform has begun speaking it. -/
structure Utterance where
  text : String
  lang : String
  rate : Nat
  started : Bool
deriving DecidableEq, Repr

/-- Component state (lines 12-23) together with the browser environment. -/
structure State where
  file : Option File
  pdfUrl : Option String
  uploading : Bool
  documents : List Document
  question : String
  messages : List Message
  thinking : Bool
  isSpeaking : Bool
  copiedIndex : Option Nat
  /-- The build-time setting `import.meta.env.VITE_API_URL`. -/
  viteApiUrl : Option String
  /-- Requests issued and not yet settled, oldest first. -/
  inflight : List Request
  /-- Texts shown by `alert`. -/
  alerts : List String
  /-- First arguments of `console.error`. -/
  consoleErrors : List String
  /-- Last text handed to `navigator.clipboard.writeText`. -/
  clipboard : Option String
  /-- Whether `navigator.clipboard` is defined (it is only in a secure context). -/
  clipboardSupported : Bool
  /-- Whether `'speechSynthesis' in window`. -/
  speechSupported : Bool
  /-- The utterance queue of `window.speechSynthesis`, head first. -/
  utterances : List Utterance
  /-- Utterances removed by `cancel()` whose end/error event is still to be delivered. -/
  cancelledUtterances : Nat
  /-- Milliseconds since page load. -/
  now : Nat
  /-- Due times of the pending `setTimeout(() => setCopiedIndex(null), 2000)` callbacks. -/
  timers : List Nat
deriving DecidableEq, Repr

/-! ## JavaScript primitives -/

/-- ECMAScript `WhiteSpace` and `LineTerminator` code points, the set stripped by
`String.prototype.trim`. -/
def isWhiteSpace (c : Char) : Bool :=
  let n := c.toNat
  n == 0x09 || n == 0x0A || n == 0x0B || n == 0x0C || n == 0x0D || n == 0x20 ||
  n == 0xA0 || n == 0x1680 || (0x2000 ≤ n && n ≤ 0x200A) || n == 0x2028 ||
  n == 0x2029 || n == 0x202F || n == 0x205F || n == 0x3000 || n == 0xFEFF

/-- The method `String.prototype.trim`: strip white space from both ends. -/
def trim (t : String) : String :=
  ⟨((t.data.dropWhile isWhiteSpace).reverse.dropWhile isWhiteSpace).reverse⟩

/-- JavaScript truthiness of a value that is a string or `null`. -/
def truthy : Option String → Bool
  | none => false
  | some t => t != ""

/-- Line 9: `import.meta.env.VITE_API_URL || "http://localhost:8000"`. -/
def API_BASE_URL (s : State) : String :=
  if truthy s.viteApiUrl then s.viteApiUrl.getD "" else "http://localhost:8000"

/-- The `useState` initial values (lines 12-23) on a page that has just loaded. -/
def init (viteApiUrl : Option String) (speechSupported clipboardSupported : Bool) :
    State where
  file := none
  pdfUrl := none
  uploading := false
  documents := []
  question := ""
  messages := []
  thinking := false
  isSpeaking := false
  copiedIndex := none
  viteApiUrl := viteApiUrl
  inflight := []
  alerts := []
  consoleErrors := []
  clipboard := none
  clipboardSupported := clipboardSupported
  speechSupported := speechSupported
  utterances := []
  cancelledUtterances := 0
  now := 0
  timers := []

/-! ## History and document list (lines 32-48) -/

/-- The greeting seeded on empty history (line 38). -/
def defaultGreeting : Message :=
  ⟨.ai, "Hello! Upload a PDF to start. I recall our past chats!"⟩

/-- Lines 32-34 of `fetchHistory`: issue `GET /history`. -/
def fetchHistory (s : State) : State :=
  { s with inflight := s.inflight ++ [.history] }

/-- Lines 35-40 of `fetchHistory`: `some history` is `res.data.history`, `none` is the
`catch` branch. -/
def fetchHistory_resume (s : State) (res : Option (List Message)) : State :=
  match res with
  | some history =>
    if history.length > 0 then { s with messages := history }
    else { s with messages := [defaultGreeting] }
  | none => { s with consoleErrors := s.consoleErrors ++ ["History Error"] }

/-- Lines 43-45 of `fetchDocuments`: issue `GET /documents`. -/
def fetchDocuments (s : State) : State :=
  { s with inflight := s.inflight ++ [.documents] }

/-- Lines 46-47 of `fetchDocuments`. -/
def fetchDocuments_resume (s : State) (res : Option (List Document)) : State :=
  match res with
  | some documents => { s with documents := documents }
  | none => { s with consoleErrors := s.consoleErrors ++ ["Docs Error"] }

/-- The mount effect (lines 26-30): `fetchHistory(); fetchDocuments();`. -/
def mount (s : State) : State :=
  fetchDocuments (fetchHistory s)

/-! ## Speech (lines 51-69) -/

/-- The platform call `window.speechSynthesis.cancel()`: empty the utterance queue. -/
def speechCancel (s : State) : State :=
  { s with utterances := [],
           cancelledUtterances := s.cancelledUtterances + s.utterances.length }

/-- The platform call `window.speechSynthesis.speak(utterance)`: enqueue. -/
def speechSpeak (s : State) (u : Utterance) : State :=
  { s with utterances := s.utterances ++ [u] }

/-- Lines 51-64, `speakText`. -/
def speakText (s : State) (text : String) : State :=
  if s.speechSupported then
    speechSpeak (speechCancel s) ⟨text, "en-US", 1, false⟩
  else
    { s with alerts := s.alerts ++ ["Sorry, your browser doesn't support Text-to-Speech!"] }

/-- Lines 66-69, `stopSpeaking`. Where `window.speechSynthesis` is undefined the member
access on line 67 throws and line 68 is not reached. -/
def stopSpeaking (s : State) : Except String State :=
  if s.speechSupported then
    .ok { speechCancel s with isSpeaking := false }
  else
    .error "TypeError"

/-- Line 57: the platform starts speaking the head utterance and calls `onstart`. -/
def utteranceStart (s : State) : State :=
  match s.utterances with
  | u :: rest =>
    if u.started then s
    else { s with utterances := { u with started := true } :: rest, isSpeaking := true }
  | [] => s

/-- Line 58: the head utterance has been spoken to its end; the platform calls `onend`. -/
def utteranceEnd (s : State) : State :=
  match s.utterances with
  | u :: rest =>
    if u.started then { s with utterances := rest, isSpeaking := false } else s
  | [] => s

/-- Line 59: synthesis of the head utterance fails; the platform calls `onerror`. -/
def utteranceError (s : State) : State :=
  match s.utterances with
  | _ :: rest => { s with utterances := rest, isSpeaking := false }
  | [] => s

/-- Lines 58-59: the platform reports the end of an utterance that `cancel()` had removed;
either callback is `setIsSpeaking(false)`. -/
def cancelledUtteranceEnd (s : State) : State :=
  if s.cancelledUtterances > 0 then
    { s with cancelledUtterances := s.cancelledUtterances - 1, isSpeaking := false }
  else s

/-! ## Copy (lines 72-76) -/

/-- Lines 72-76, `handleCopy`. Where `navigator.clipboard` is undefined the member access
on line 73 throws and lines 74-75 are not reached. -/
def handleCopy (s : State) (text : String) (index : Nat) : Except String State :=
  if s.clipboardSupported then
    .ok { s with clipboard := some text,
                 copiedIndex := some index,
                 timers := s.timers ++ [s.now + 2000] }
  else
    .error "TypeError"

/-- The clock reaches `t`: every timer due by then runs `setCopiedIndex(null)`. -/
def advance (s : State) (t : Nat) : State :=
  if s.now ≤ t then
    { s with now := t,
             copiedIndex := if s.timers.any (· ≤ t) then none else s.copiedIndex,
             timers := s.timers.filter (fun d => ¬ d ≤ t) }
  else s

/-! ## Reset and new upload (lines 79-96) -/

/-- The message installed by a successful clear (line 86). -/
def clearedGreeting : Message :=
  ⟨.ai, "History cleared. Ready for a new document!"⟩

/-- Lines 80-83 of `handleClearHistory`; `confirmed` is the result of `window.confirm`.
An exception thrown by `stopSpeaking` rejects the handler before the request is made. -/
def handleClearHistory (s : State) (confirmed : Bool) : Except String State :=
  if !confirmed then .ok s
  else
    match stopSpeaking s with
    | .error e => .error e
    | .ok s1 => .ok { s1 with inflight := s1.inflight ++ [.clear] }

/-- Lines 84-88 of `handleClearHistory`; `ok` tells whether `DELETE /clear` succeeded. -/
def handleClearHistory_resume (s : State) (ok : Bool) : State :=
  if ok then
    fetchDocuments { s with file := none, pdfUrl := none, messages := [clearedGreeting] }
  else
    { s with alerts := s.alerts ++ ["Error clearing history"] }

/-- Lines 91-96, `handleNewUpload`. -/
def handleNewUpload (s : State) : Except String State :=
  match stopSpeaking s with
  | .error e => .error e
  | .ok s1 =>
    .ok { s1 with pdfUrl := none, file := none,
                  messages := s1.messages ++ [⟨.ai, "--- Ready for new file ---"⟩] }

/-! ## Upload (lines 99-132) -/

/-- Lines 107-115 of `handleUpload`. -/
def handleUpload (s : State) (selectedFile : File) : State :=
  { s with uploading := true, inflight := s.inflight ++ [.upload selectedFile] }

/-- Lines 117-126 of `handleUpload`; `ok` tells whether `POST /upload` succeeded. -/
def handleUpload_resume (s : State) (selectedFile : File) (ok : Bool) : State :=
  let s1 : State :=
    if ok then
      let url := API_BASE_URL s ++ "/static/" ++ selectedFile.name
      fetchDocuments
        { s with pdfUrl := some url,
                 messages := s.messages ++
                   [⟨.ai, "I've read " ++ selectedFile.name ++ ". Ask me anything!"⟩] }
    else
      { s with consoleErrors := s.consoleErrors ++ ["Upload Error:"],
               alerts := s.alerts ++ ["Error uploading file."] }
  { s1 with uploading := false }

/-- Lines 99-105, `handleFileChange`; the argument is `e.target.files[0]`, `none` when no
file was chosen. -/
def handleFileChange (s : State) (files0 : Option File) : State :=
  match files0 with
  | some selectedFile => handleUpload { s with file := some selectedFile } selectedFile
  | none => s

/-- Lines 129-132, `loadOldFile`. -/
def loadOldFile (s : State) (filename : String) : State :=
  { s with pdfUrl := some (API_BASE_URL s ++ "/static/" ++ filename),
           messages := s.messages ++ [⟨.ai, "Loaded " ++ filename ++ " from history."⟩] }

/-! ## Chat (lines 135-167) -/

/-- Line 136: `const textToSend = customQuestion || question`. -/
def textToSend (s : State) (customQuestion : Option String) : String :=
  if truthy customQuestion then customQuestion.getD "" else s.question

/-- Lines 135-147 of `handleAsk`: everything up to the `await` of `POST /query`. -/
def handleAsk (s : State) (customQuestion : Option String) : State :=
  if trim (textToSend s customQuestion) == "" then s
  else
    let s1 : State :=
      if !truthy customQuestion then
        { s with messages := s.messages ++ [⟨.user, textToSend s customQuestion⟩] }
      else s
    { s1 with question := "", thinking := true,
              inflight := s1.inflight ++ [.query (textToSend s customQuestion)] }

/-- Lines 148-153 of `handleAsk`; `some answer` is `res.data.answer`, `none` is the
`catch` branch. -/
def handleAsk_resume (s : State) (res : Option String) : State :=
  let s1 : State :=
    match res with
    | some answer => { s with messages := s.messages ++ [⟨.ai, answer⟩] }
    | none => { s with messages := s.messages ++ [⟨.ai, "Error: Could not get answer."⟩] }
  { s1 with thinking := false }

/-- Lines 156-160 of `handleSummary`. -/
def handleSummary (s : State) : State :=
  { s with messages := s.messages ++ [⟨.user, "✨ Generating Document Summary..."⟩],
           thinking := true,
           inflight := s.inflight ++ [.summarize] }

/-- Lines 161-166 of `handleSummary`. -/
def handleSummary_resume (s : State) (res : Option String) : State :=
  let s1 : State :=
    match res with
    | some summary => { s with messages := s.messages ++ [⟨.ai, summary⟩] }
    | none => { s with messages := s.messages ++ [⟨.ai, "Error generating summary."⟩] }
  { s1 with thinking := false }

/-! ## Event dispatch -/

/-- What can happen to the mounted component: the user actions wired in the JSX
(lines 169-301), the settling of a request, the callbacks of the speech platform, and
the passage of time. -/
inductive Event where
  | clickNew
  | clickSummary
  | clickClear (confirmed : Bool)
  | selectFile (files0 : Option File)
  | clickDocument (i : Nat)
  | clickStop
  | clickSpeak (index : Nat)
  | clickCopy (index : Nat)
  | typeQuestion (value : String)
  | pressEnter
  | clickSend
  | settle (i : Nat) (res : Response)
  | utteranceStart
  | utteranceEnd
  | utteranceError
  | cancelledUtteranceEnd
  | advance (t : Nat)
deriving DecidableEq, Repr

/-- The continuation of the handler that awaits `req`, run on the response `res`.
A body that does not belong to the endpoint is not a response to it. -/
def resume (s : State) : Request → Response → Option State
  | .history, .history h => some (fetchHistory_resume s (some h))
  | .history, .error => some (fetchHistory_resume s none)
  | .documents, .documents d => some (fetchDocuments_resume s (some d))
  | .documents, .error => some (fetchDocuments_resume s none)
  | .upload f, .ok => some (handleUpload_resume s f true)
  | .upload f, .error => some (handleUpload_resume s f false)
  | .query _, .answer a => some (handleAsk_resume s (some a))
  | .query _, .error => some (handleAsk_resume s none)
  | .summarize, .summary t => some (handleSummary_resume s (some t))
  | .summarize, .error => some (handleSummary_resume s none)
  | .clear, .ok => some (handleClearHistory_resume s true)
  | .clear, .error => some (handleClearHistory_resume s false)
  | _, _ => none

/-- The request at position `i` of `inflight` settles with `res`. -/
def settle (s : State) (i : Nat) (res : Response) : State :=
  match s.inflight[i]? with
  | some req => (resume { s with inflight := s.inflight.eraseIdx i } req res).getD s
  | none => s

/-- An exception escaping an event handler leaves the component state as it was. -/
def orUnchanged (s : State) : Except String State → State
  | .ok s1 => s1
  | .error _ => s

/-- One event, dispatched as the JSX wires it. A control that is not rendered or is
`disabled` in the current state does nothing. -/
def step (s : State) : Event → State
  -- line 181
  | .clickNew => orUnchanged s (handleNewUpload s)
  -- lines 185-189
  | .clickSummary => if truthy s.pdfUrl && !s.thinking then handleSummary s else s
  -- line 191
  | .clickClear confirmed => orUnchanged s (handleClearHistory s confirmed)
  -- lines 199-205
  | .selectFile files0 => if truthy s.pdfUrl then s else handleFileChange s files0
  -- lines 199, 215-223
  | .clickDocument i =>
    if truthy s.pdfUrl then s
    else
      match s.documents[i]? with
      | some doc => loadOldFile s doc.filename
      | none => s
  -- lines 244-248
  | .clickStop => if s.isSpeaking then orUnchanged s (stopSpeaking s) else s
  -- lines 254-260
  | .clickSpeak index =>
    match s.messages[index]? with
    | some msg => if msg.type = .ai then speakText s msg.text else s
    | none => s
  -- lines 254, 262-264
  | .clickCopy index =>
    match s.messages[index]? with
    | some msg =>
      if msg.type = .ai then orUnchanged s (handleCopy s msg.text index) else s
    | none => s
  -- line 290
  | .typeQuestion value => { s with question := value }
  -- line 291
  | .pressEnter => handleAsk s none
  -- line 294
  | .clickSend => if s.question == "" || s.thinking then s else handleAsk s none
  | .settle i res => settle s i res
  | .utteranceStart => utteranceStart s
  | .utteranceEnd => utteranceEnd s
  | .utteranceError => utteranceError s
  | .cancelledUtteranceEnd => cancelledUtteranceEnd s
  | .advance t => advance s t

/-- Dispatch a sequence of events in order. -/
def run (s : State) (events : List Event) : State :=
  events.foldl step s

/-- The component right after mounting: initial state, history and document requests
issued. -/
def start (viteApiUrl : Option String) (speechSupported clipboardSupported : Bool) :
    State :=
  mount (init viteApiUrl speechSupported clipboardSupported)

/-- A state the mounted component can be observed in. -/
def Reachable (s : State) : Prop :=
  ∃ viteApiUrl speechSupported clipboardSupported events,
    s = run (start viteApiUrl speechSupported clipboardSupported) events

/-! ## Vocabulary of the specification -/

/-- A text that is empty or consists only of white space. -/
def blank (t : String) : Prop :=
  ∀ c ∈ t.data, isWhiteSpace c = true

instance (t : String) : Decidable (blank t) := by
  unfold blank; infer_instance

/-- A chat request: `POST /query` or `POST /summarize`. -/
def Request.isChat : Request → Bool
  | .query _ => true
  | .summarize => true
  | _ => false

/-- Some chat request has been issued and has not yet settled. -/
def chatPending (s : State) : Bool :=
  s.inflight.any Request.isChat

/-- The text `t` occurs in `text`. -/
def occursIn (t text : String) : Prop :=
  ∃ before after : String, text = before ++ t ++ after

/-! ## Concrete states used as test inputs -/

/-- A freshly loaded page on a host with speech synthesis and clipboard access and no
configured backend URL. -/
def fresh : State :=
  init none true true

/-- The user has typed `hi` into the input field. -/
def typedHi : State :=
  { fresh with question := "hi" }

/-- The page is reading the text `Hello` aloud: `speakText` was called and the platform
has started the utterance. -/
def readingAloud : State :=
  utteranceStart (speakText fresh "Hello")

/-- The state `readingAloud` after the user has confirmed clear-history: speech stopped,
`DELETE /clear` in flight. -/
def clearRequested : State :=
  { speechCancel readingAloud with isSpeaking := false, inflight := [.clear] }

/-- Page loaded, empty history received (the greeting is shown), and the user has
clicked "Read Aloud" on the greeting; the platform has not started speaking yet. -/
def readAloudClicked : State :=
  run (start none true true) [.settle 0 (.history []), .clickSpeak 0]

/-- As `readAloudClicked`, then the platform starts speaking and the user clicks
"Read Aloud" again; the second utterance has not started yet. -/
def readAloudClickedAgain : State :=
  run (start none true true)
    [.settle 0 (.history []), .clickSpeak 0, .utteranceStart, .clickSpeak 0]

/-- Page loaded; the user types `a` and presses Enter, then, while that query is still
pending, types `b` and presses Enter again. -/
def enterPressedTwice : State :=
  run (start none true true) [.typeQuestion "a", .pressEnter, .typeQuestion "b", .pressEnter]

/-- As `enterPressedTwice`, then the first query (position 2 of the requests in flight,
after the history and document requests) is answered. -/
def firstQueryAnswered : State :=
  step enterPressedTwice (.settle 2 (.answer "x"))

/-- Page loaded with a history of two assistant messages; the user copies message 0 at
time 0 and message 1 one second later. -/
def copiedTwice : State :=
  run (start none true true)
    [.settle 0 (.history [⟨.ai, "a"⟩, ⟨.ai, "b"⟩]), .clickCopy 0, .advance 1000,
     .clickCopy 1]

/-- Page loaded and the history request has failed. -/
def historyFailed : State :=
  run (start none true true) [.settle 0 .error]

/-! ## Invariants -/

/-- The platform holds at most one utterance, and `isSpeaking` is raised only while it
holds one. -/
def SpeechInv (s : State) : Prop :=
  s.utterances.length ≤ 1 ∧ (s.isSpeaking = true → s.utterances ≠ [])

/-- At most one chat request is pending, and `thinking` is raised exactly while one is. -/
def ChatInv (s : State) : Prop :=
  s.inflight.countP Request.isChat ≤ 1 ∧
  (s.thinking = true ↔ s.inflight.countP Request.isChat = 1)

/-! ## Lemmas on the primitives -/

theorem trim_eq_empty_iff (t : String) : trim t = "" ↔ blank t := by
  unfold trim blank
  constructor
  · intro h
    have h1 : ((t.data.dropWhile isWhiteSpace).reverse.dropWhile isWhiteSpace).reverse = [] := by
      have := congrArg String.data h
      simpa using this
    rw [List.reverse_eq_nil_iff, List.dropWhile_eq_nil_iff] at h1
    by_cases hd : t.data.dropWhile isWhiteSpace = []
    · exact List.dropWhile_eq_nil_iff.mp hd
    · exfalso
      have hne := List.head_dropWhile_not isWhiteSpace t.data hd
      have hmem : (t.data.dropWhile isWhiteSpace).head hd ∈
          (t.data.dropWhile isWhiteSpace).reverse :=
        List.mem_reverse.mpr (List.head_mem hd)
      rw [h1 _ hmem] at hne
      exact absurd hne (by decide)
  · intro h
    have hd : t.data.dropWhile isWhiteSpace = [] := List.dropWhile_eq_nil_iff.mpr h
    rw [hd]
    rfl

theorem handleAsk_blank (s : State) (customQuestion : Option String)
    (h : blank (textToSend s customQuestion)) : handleAsk s customQuestion = s := by
  unfold handleAsk
  rw [(trim_eq_empty_iff _).mpr h]
  rfl

theorem handleAsk_not_blank (s : State) (customQuestion : Option String)
    (h : ¬ blank (textToSend s customQuestion)) :
    handleAsk s customQuestion =
      { (if !truthy customQuestion then
          { s with messages := s.messages ++ [⟨.user, textToSend s customQuestion⟩] }
         else s) with
        question := "", thinking := true,
        inflight := (if !truthy customQuestion then
          { s with messages := s.messages ++ [⟨.user, textToSend s customQuestion⟩] }
         else s).inflight ++ [.query (textToSend s customQuestion)] } := by
  unfold handleAsk
  have : (trim (textToSend s customQuestion) == "") = false := by
    rw [beq_eq_false_iff_ne]
    exact fun h1 => h ((trim_eq_empty_iff _).mp h1)
  rw [this]
  rfl

/-! ## Chat pipeline: one `ask` call -/

/-- C1: for every prior state whose input field holds a non-blank question, an ask call
typed by the user (no custom question) issues `POST /query` with that text, and once the
request succeeds with answer `a` the conversation is the prior conversation, in order,
followed by exactly two entries: the user message carrying the question, then the
assistant message carrying `a`. -/
theorem ask_typed_success_appends_question_then_answer (s : State) (a : String)
    (h : ¬ blank s.question) :
    (handleAsk s none).inflight = s.inflight ++ [.query s.question] ∧
    (handleAsk_resume (handleAsk s none) (some a)).messages =
      s.messages ++ [⟨.user, s.question⟩, ⟨.ai, a⟩] := by
  have hb : ¬ blank (textToSend s none) := h
  rw [handleAsk_not_blank s none hb]
  simp [handleAsk_resume, textToSend, truthy]

theorem ask_typed_success_appends_question_then_answer_witness :
    ¬ blank typedHi.question ∧
    (handleAsk typedHi none).inflight = typedHi.inflight ++ [.query typedHi.question] ∧
    (handleAsk_resume (handleAsk typedHi none) (some "42")).messages =
      typedHi.messages ++ [⟨.user, typedHi.question⟩, ⟨.ai, "42"⟩] :=
  ⟨by decide, ask_typed_success_appends_question_then_answer typedHi "42" (by decide)⟩

/-- C2, as stated, fails: a typed ask of `hi` whose request fails leaves two new entries,
the user message and the failure notice, not one. -/
theorem ask_failed_grows_by_one_counterexample :
    ¬ blank (textToSend typedHi none) ∧
    (handleAsk_resume (handleAsk typedHi none) none).messages =
      typedHi.messages ++ [⟨.user, "hi"⟩, ⟨.ai, "Error: Could not get answer."⟩] ∧
    (handleAsk_resume (handleAsk typedHi none) none).messages.length ≠
      typedHi.messages.length + 1 := by
  decide

/-- C2 amended: for every ask call with non-blank text whose query request fails, the
conversation ends with exactly one new assistant failure notice; a programmatic ask
(non-empty custom question) adds nothing else, so the conversation grows by one, while a
typed ask has recorded the user message before the request, so it grows by two. -/
theorem ask_failed_appends_failure_notice (s : State) (customQuestion : Option String)
    (h : ¬ blank (textToSend s customQuestion)) :
    (handleAsk_resume (handleAsk s customQuestion) none).messages =
      s.messages ++
        (if truthy customQuestion then []
         else [⟨.user, textToSend s customQuestion⟩]) ++
        [⟨.ai, "Error: Could not get answer."⟩] := by
  rw [handleAsk_not_blank s customQuestion h]
  cases hq : truthy customQuestion <;> simp [handleAsk_resume]

theorem ask_failed_appends_failure_notice_witness :
    ¬ blank (textToSend fresh (some "why?")) ∧
    (handleAsk_resume (handleAsk fresh (some "why?")) none).messages =
      fresh.messages ++
        (if truthy (some "why?") then []
         else [⟨.user, textToSend fresh (some "why?")⟩]) ++
        [⟨.ai, "Error: Could not get answer."⟩] :=
  ⟨by decide, ask_failed_appends_failure_notice fresh (some "why?") (by decide)⟩

/-- C9, as stated, fails: the empty string passed as the custom question is blank, yet
with `hi` in the input field the call appends the user message, clears the field, raises
`thinking` and issues the query. -/
theorem ask_blank_custom_question_counterexample :
    blank "" ∧
    (handleAsk typedHi (some "")).messages = [⟨.user, "hi"⟩] ∧
    (handleAsk typedHi (some "")).question = "" ∧
    (handleAsk typedHi (some "")).thinking = true ∧
    (handleAsk typedHi (some "")).inflight = [.query "hi"] ∧
    handleAsk typedHi (some "") ≠ typedHi := by
  decide

/-- C9 amended: for every state, `ask` is a no-op (the whole state, hence the
conversation, the input field, `thinking` and the requests in flight, is unchanged)
whenever the text it would send, which is the custom question when that is a non-empty
string and the input field otherwise, is empty or white space only. -/
theorem ask_blank_text_is_noop (s : State) (customQuestion : Option String)
    (h : blank (textToSend s customQuestion)) :
    handleAsk s customQuestion = s :=
  handleAsk_blank s customQuestion h

theorem ask_blank_text_is_noop_witness :
    blank (textToSend fresh (some " \t\n")) ∧ handleAsk fresh (some " \t\n") = fresh :=
  ⟨by decide, ask_blank_text_is_noop fresh (some " \t\n") (by decide)⟩

/-! ## Clear history -/

theorem handleClearHistory_ok (s s1 : State) (h : handleClearHistory s true = .ok s1) :
    s.speechSupported = true ∧
    s1 = { speechCancel s with isSpeaking := false,
                               inflight := s.inflight ++ [.clear] } := by
  unfold handleClearHistory stopSpeaking at h
  cases hs : s.speechSupported
  · simp [hs] at h
  · simp [hs] at h
    exact ⟨rfl, h.symm⟩

/-- C7: for every prior state, without confirmation the handler returns the state as it
was, so nothing changes and no request is issued; and a confirmed clear-history whose
`DELETE /clear` request is made and succeeds ends with the conversation holding exactly
one message, the assistant reset greeting, and with the viewer target null. -/
theorem clear_confirmed_success_resets (s : State) :
    handleClearHistory s false = .ok s ∧
    ∀ s1, handleClearHistory s true = .ok s1 →
      s1.inflight = s.inflight ++ [.clear] ∧
      (handleClearHistory_resume s1 true).messages =
        [⟨.ai, "History cleared. Ready for a new document!"⟩] ∧
      (handleClearHistory_resume s1 true).pdfUrl = none := by
  refine ⟨rfl, ?_⟩
  intro s1 h
  obtain ⟨_, rfl⟩ := handleClearHistory_ok s s1 h
  exact ⟨rfl, rfl, rfl⟩

theorem clear_confirmed_success_resets_witness :
    handleClearHistory readingAloud false = .ok readingAloud ∧
    handleClearHistory readingAloud true = .ok clearRequested ∧
    clearRequested.inflight = readingAloud.inflight ++ [.clear] ∧
    (handleClearHistory_resume clearRequested true).messages =
      [⟨.ai, "History cleared. Ready for a new document!"⟩] ∧
    (handleClearHistory_resume clearRequested true).pdfUrl = none :=
  ⟨(clear_confirmed_success_resets readingAloud).1, rfl,
   (clear_confirmed_success_resets readingAloud).2 clearRequested rfl⟩

/-- C4, as stated, fails: while an answer is being read aloud (`isSpeaking` true), a
confirmed clear whose backend call fails leaves `isSpeaking` false and the utterance
cancelled. -/
theorem clear_failed_state_unchanged_counterexample :
    readingAloud.isSpeaking = true ∧
    (run readingAloud [.clickClear true, .settle 0 .error]).isSpeaking = false ∧
    readingAloud.utterances ≠ [] ∧
    (run readingAloud [.clickClear true, .settle 0 .error]).utterances = [] := by
  decide

/-- C4 amended: for every prior state, when the user confirms clear-history and the
backend clear call fails, the conversation, the viewer target, the selected file, the
document list, the input field and the flags `uploading`, `thinking` and
`copiedMessageIndex` are unchanged and an error alert is shown; speech has been stopped
on confirmation, before the request was made, so `isSpeaking` is false and no utterance
is queued, whatever they were before. -/
theorem clear_failed_keeps_all_but_speech (s s1 : State)
    (h : handleClearHistory s true = .ok s1) :
    (handleClearHistory_resume s1 false).messages = s.messages ∧
    (handleClearHistory_resume s1 false).pdfUrl = s.pdfUrl ∧
    (handleClearHistory_resume s1 false).file = s.file ∧
    (handleClearHistory_resume s1 false).documents = s.documents ∧
    (handleClearHistory_resume s1 false).question = s.question ∧
    (handleClearHistory_resume s1 false).uploading = s.uploading ∧
    (handleClearHistory_resume s1 false).thinking = s.thinking ∧
    (handleClearHistory_resume s1 false).copiedIndex = s.copiedIndex ∧
    (handleClearHistory_resume s1 false).alerts = s.alerts ++ ["Error clearing history"] ∧
    (handleClearHistory_resume s1 false).isSpeaking = false ∧
    (handleClearHistory_resume s1 false).utterances = [] := by
  obtain ⟨_, rfl⟩ := handleClearHistory_ok s s1 h
  refine ⟨rfl, rfl, rfl, rfl, rfl, rfl, rfl, rfl, rfl, rfl, rfl⟩

theorem clear_failed_keeps_all_but_speech_witness :
    handleClearHistory readingAloud true = .ok clearRequested ∧
    (handleClearHistory_resume clearRequested false).messages = readingAloud.messages ∧
    (handleClearHistory_resume clearRequested false).isSpeaking = false :=
  have h := clear_failed_keeps_all_but_speech readingAloud clearRequested rfl
  ⟨rfl, h.1, h.2.2.2.2.2.2.2.2.2.1⟩

/-! ## Upload -/

/-- C8: for every file with name `n` and every prior state, `handleUpload` raises
`uploading` and issues the upload request; once the request has settled `uploading` is
false, on success and on failure alike; on success the viewer target is the base URL
followed by `/static/` and `n`, and the conversation is the prior conversation followed
by exactly one assistant message, whose text contains `n`; on failure the viewer target
and the conversation are unchanged. -/
theorem upload_toggles_flag_and_installs_document (s : State) (selectedFile : File) :
    (handleUpload s selectedFile).uploading = true ∧
    (handleUpload s selectedFile).inflight = s.inflight ++ [.upload selectedFile] ∧
    (∀ ok, (handleUpload_resume (handleUpload s selectedFile) selectedFile ok).uploading
      = false) ∧
    (handleUpload_resume (handleUpload s selectedFile) selectedFile true).pdfUrl =
      some (API_BASE_URL s ++ "/static/" ++ selectedFile.name) ∧
    (handleUpload_resume (handleUpload s selectedFile) selectedFile true).messages =
      s.messages ++ [⟨.ai, "I've read " ++ selectedFile.name ++ ". Ask me anything!"⟩] ∧
    occursIn selectedFile.name ("I've read " ++ selectedFile.name ++ ". Ask me anything!") ∧
    (handleUpload_resume (handleUpload s selectedFile) selectedFile false).pdfUrl
      = s.pdfUrl ∧
    (handleUpload_resume (handleUpload s selectedFile) selectedFile false).messages
      = s.messages := by
  refine ⟨rfl, rfl, ?_, rfl, rfl, ⟨"I've read ", ". Ask me anything!", rfl⟩, rfl, rfl⟩
  intro ok
  cases ok <;> rfl

/-! ## Copy indicator -/

/-- On a host without `navigator.clipboard` the handler throws on line 73: the indicator
is not set and no reset is scheduled. -/
theorem handleCopy_without_clipboard (s : State) (text : String) (index : Nat)
    (h : s.clipboardSupported = false) :
    handleCopy s text index = .error "TypeError" ∧
    orUnchanged s (handleCopy s text index) = s := by
  simp [handleCopy, h, orUnchanged]

/-- C6, as stated, fails: with a first copy at time 0 and a second copy, of message 1,
at time 1000, the indicator shows 1 up to time 1999 but is already null at time 2000,
one second before the second copy's own delay has elapsed: the first copy's timer was
not cancelled and clears it. -/
theorem second_copy_restarts_timer_counterexample :
    copiedTwice.clipboardSupported = true ∧
    copiedTwice.now = 1000 ∧
    copiedTwice.copiedIndex = some 1 ∧
    copiedTwice.timers = [2000, 3000] ∧
    (advance copiedTwice 1999).copiedIndex = some 1 ∧
    (advance copiedTwice 2000).copiedIndex = none ∧
    2000 < 1000 + 2000 := by
  decide

/-- C6 amended: on a host that has `navigator.clipboard`, for a copy of message `i` at
time `s.now` with no earlier reset pending and a second copy, of message `j`, at a time
`t2` with `s.now < t2 < s.now + 2000`, both calls return, and the indicator equals `j`
from `t2` until 2 seconds after the FIRST copy and is null from then on (no other event
intervening): every copy schedules its own reset, no timer is ever cancelled, and the
reset scheduled by the first copy clears the indicator of the second. -/
theorem second_copy_cleared_by_first_timer (s : State) (x y : String) (i j t2 t : Nat)
    (hc : s.clipboardSupported = true) (h0 : s.timers = []) (h1 : s.now < t2)
    (h2 : t2 < s.now + 2000) (h3 : t2 ≤ t) :
    ∃ s1 s2, handleCopy s x i = .ok s1 ∧
      handleCopy (advance s1 t2) y j = .ok s2 ∧
      (advance s2 t).copiedIndex = if t < s.now + 2000 then some j else none := by
  have hle : s.now ≤ t2 := Nat.le_of_lt h1
  refine ⟨{ s with clipboard := some x, copiedIndex := some i,
                   timers := s.timers ++ [s.now + 2000] },
          { s with clipboard := some y, copiedIndex := some j, now := t2,
                   timers := [s.now + 2000, t2 + 2000] }, ?_, ?_, ?_⟩
  · simp [handleCopy, hc]
  · simp [handleCopy, advance, hc, h0, hle, h2]
  · unfold advance
    simp only [h3, if_true, List.any_cons, List.any_nil, Bool.or_false]
    by_cases ht : t < s.now + 2000
    · have a2 : t < t2 + 2000 := by omega
      simp [ht, a2]
    · have a1 : s.now + 2000 ≤ t := Nat.le_of_not_lt ht
      simp [ht, a1]

theorem second_copy_cleared_by_first_timer_witness :
    fresh.clipboardSupported = true ∧
    ∃ s1 s2, handleCopy fresh "a" 0 = .ok s1 ∧
      handleCopy (advance s1 1000) "b" 1 = .ok s2 ∧
      (advance s2 2500).copiedIndex = if 2500 < fresh.now + 2000 then some 1 else none :=
  ⟨rfl, second_copy_cleared_by_first_timer fresh "a" "b" 0 1 1000 2500 rfl rfl (by decide)
    (by decide) (by decide)⟩

/-! ## Speech -/

theorem resume_speech (s s1 : State) (req : Request) (res : Response)
    (h : resume s req res = some s1) :
    s1.utterances = s.utterances ∧ s1.isSpeaking = s.isSpeaking := by
  cases req <;> cases res <;> simp [resume] at h <;> subst h <;>
    first
      | exact ⟨rfl, rfl⟩
      | (simp only [fetchHistory_resume]; split <;> exact ⟨rfl, rfl⟩)

theorem step_speechInv (s : State) (e : Event) (h : SpeechInv s) : SpeechInv (step s e) := by
  obtain ⟨h1, h2⟩ := h
  cases e with
  | clickNew =>
    simp only [step, handleNewUpload, stopSpeaking]
    cases s.speechSupported
    · exact ⟨h1, h2⟩
    · simp [orUnchanged, SpeechInv, speechCancel]
  | clickSummary =>
    simp only [step]
    split
    · exact ⟨h1, h2⟩
    · exact ⟨h1, h2⟩
  | clickClear confirmed =>
    simp only [step, handleClearHistory, stopSpeaking]
    cases confirmed <;> cases s.speechSupported <;>
      simp [orUnchanged, SpeechInv, speechCancel, h1] <;> exact h2
  | selectFile files0 =>
    simp only [step]
    split
    · exact ⟨h1, h2⟩
    · cases files0 <;> exact ⟨h1, h2⟩
  | clickDocument i =>
    simp only [step]
    split
    · exact ⟨h1, h2⟩
    · split <;> exact ⟨h1, h2⟩
  | clickStop =>
    simp only [step, stopSpeaking]
    cases s.isSpeaking <;> cases s.speechSupported <;>
      simp [orUnchanged, SpeechInv, speechCancel, h1] <;> exact h2
  | clickSpeak index =>
    simp only [step]
    split
    · split
      · unfold speakText
        cases hs : s.speechSupported
        · exact ⟨h1, h2⟩
        · simp [SpeechInv, speechSpeak, speechCancel]
      · exact ⟨h1, h2⟩
    · exact ⟨h1, h2⟩
  | clickCopy index =>
    simp only [step]
    split
    · split
      · unfold handleCopy
        cases s.clipboardSupported <;> exact ⟨h1, h2⟩
      · exact ⟨h1, h2⟩
    · exact ⟨h1, h2⟩
  | typeQuestion value => exact ⟨h1, h2⟩
  | pressEnter =>
    simp only [step, handleAsk]
    split
    · exact ⟨h1, h2⟩
    · cases truthy none <;> exact ⟨h1, h2⟩
  | clickSend =>
    simp only [step, handleAsk]
    split
    · exact ⟨h1, h2⟩
    · split
      · exact ⟨h1, h2⟩
      · cases truthy none <;> exact ⟨h1, h2⟩
  | settle i res =>
    simp only [step, settle]
    split
    · rename_i req _
      cases hr : resume { s with inflight := s.inflight.eraseIdx i } req res with
      | none => exact ⟨h1, h2⟩
      | some s1 =>
        obtain ⟨e1, e2⟩ := resume_speech _ _ _ _ hr
        simp only [Option.getD_some, SpeechInv, e1, e2]
        exact ⟨h1, h2⟩
    · exact ⟨h1, h2⟩
  | utteranceStart =>
    simp only [step, utteranceStart]
    split
    · rename_i u rest hu
      split
      · exact ⟨h1, h2⟩
      · rw [hu] at h1
        simpa [SpeechInv] using h1
    · exact ⟨h1, h2⟩
  | utteranceEnd =>
    simp only [step, utteranceEnd]
    split
    · rename_i u rest hu
      split
      · rw [hu] at h1
        simp only [List.length_cons] at h1
        simp only [SpeechInv]
        exact ⟨by omega, by simp⟩
      · exact ⟨h1, h2⟩
    · exact ⟨h1, h2⟩
  | utteranceError =>
    simp only [step, utteranceError]
    split
    · rename_i u rest hu
      rw [hu] at h1
      simp only [List.length_cons] at h1
      simp only [SpeechInv]
      exact ⟨by omega, by simp⟩
    · exact ⟨h1, h2⟩
  | cancelledUtteranceEnd =>
    simp only [step, cancelledUtteranceEnd]
    split
    · simp only [SpeechInv]
      exact ⟨h1, by simp⟩
    · exact ⟨h1, h2⟩
  | advance t =>
    simp only [step, advance]
    split <;> exact ⟨h1, h2⟩

theorem run_speechInv (events : List Event) (s : State) (h : SpeechInv s) :
    SpeechInv (run s events) := by
  induction events generalizing s with
  | nil => exact h
  | cons e rest ih => exact ih (step s e) (step_speechInv s e h)

/-- C10, as stated, fails, whichever way "active" is read. After "Read Aloud" is clicked
the utterance is held by the platform while `isSpeaking` is still false (it is raised by
the start callback only). After the platform has started it and "Read Aloud" is clicked
again, `isSpeaking` is true while the only utterance held has not started. -/
theorem isSpeaking_iff_active_counterexample :
    readAloudClicked.utterances =
      [⟨"Hello! Upload a PDF to start. I recall our past chats!", "en-US", 1, false⟩] ∧
    readAloudClicked.isSpeaking = false ∧
    readAloudClickedAgain.isSpeaking = true ∧
    readAloudClickedAgain.utterances =
      [⟨"Hello! Upload a PDF to start. I recall our past chats!", "en-US", 1, false⟩] := by
  decide

/-- C10 amended: in every reachable state the platform holds at most one utterance,
`speak(A)` followed immediately by `speak(B)` leaves `B` as the only utterance held
(where the host has no speech synthesis `speak` only alerts and the queue stays as it
is), and
`isSpeaking` is true only if an utterance is held. The converse is not claimed: `isSpeaking` is raised by the start
callback, not by `speak`. -/
theorem speech_at_most_one_utterance (s : State) (h : Reachable s) (A B : String) :
    s.utterances.length ≤ 1 ∧
    (s.isSpeaking = true → s.utterances ≠ []) ∧
    (speakText (speakText s A) B).utterances =
      if s.speechSupported then [⟨B, "en-US", 1, false⟩] else s.utterances := by
  obtain ⟨url, sup, clip, events, rfl⟩ := h
  have hinv : SpeechInv (run (start url sup clip) events) :=
    run_speechInv events _ ⟨by simp [start, mount, fetchDocuments, fetchHistory, init],
      by simp [start, mount, fetchDocuments, fetchHistory, init]⟩
  refine ⟨hinv.1, hinv.2, ?_⟩
  cases hs : (run (start url sup clip) events).speechSupported
  · simp [speakText, hs]
  · simp [speakText, hs, speechSpeak, speechCancel]

theorem speech_at_most_one_utterance_witness :
    Reachable readAloudClickedAgain ∧
    readAloudClickedAgain.utterances.length ≤ 1 ∧
    (readAloudClickedAgain.isSpeaking = true → readAloudClickedAgain.utterances ≠ []) ∧
    (speakText (speakText readAloudClickedAgain "A") "B").utterances =
      if readAloudClickedAgain.speechSupported then [⟨"B", "en-US", 1, false⟩]
      else readAloudClickedAgain.utterances :=
  ⟨⟨none, true, true, _, rfl⟩,
   speech_at_most_one_utterance readAloudClickedAgain ⟨none, true, true, _, rfl⟩ "A" "B"⟩

/-! ## The `thinking` flag -/

theorem countP_eraseIdx_add {α : Type} (p : α → Bool) :
    ∀ (l : List α) (i : Nat) (a : α), l[i]? = some a →
      (l.eraseIdx i).countP p + (if p a then 1 else 0) = l.countP p := by
  intro l
  induction l with
  | nil => intro i a h; simp at h
  | cons b rest ih =>
    intro i a h
    cases i with
    | zero =>
      simp only [List.getElem?_cons_zero, Option.some.injEq] at h
      subst h
      simp [List.countP_cons]
    | succ k =>
      simp only [List.getElem?_cons_succ] at h
      have := ih k a h
      simp only [List.eraseIdx_cons_succ, List.countP_cons]
      omega

theorem resume_chat (s s1 : State) (req : Request) (res : Response)
    (h : resume s req res = some s1) :
    s1.inflight.countP Request.isChat = s.inflight.countP Request.isChat ∧
    s1.thinking = (if req.isChat then false else s.thinking) := by
  cases req <;> cases res <;> simp [resume] at h <;> subst h <;>
    first
      | exact ⟨rfl, rfl⟩
      | (simp only [fetchHistory_resume]; split <;> exact ⟨rfl, rfl⟩)
      | simp [handleUpload_resume, handleClearHistory_resume, fetchDocuments,
          Request.isChat, List.countP_append]

/-- The step relation keeps `ChatInv` for every event other than the Enter key: the send
button (line 294) and the summary button (line 186) are disabled while `thinking`. -/
theorem step_chatInv (s : State) (e : Event) (he : e ≠ .pressEnter) (h : ChatInv s) :
    ChatInv (step s e) := by
  obtain ⟨h1, h2⟩ := h
  cases e with
  | pressEnter => exact absurd rfl he
  | clickNew =>
    simp only [step, handleNewUpload, stopSpeaking]
    cases s.speechSupported <;> exact ⟨h1, h2⟩
  | clickSummary =>
    simp only [step]
    split
    · rename_i hg
      simp only [Bool.and_eq_true, Bool.not_eq_true'] at hg
      have h0 : s.inflight.countP Request.isChat = 0 := by
        have : ¬ s.inflight.countP Request.isChat = 1 := fun hc => by
          have := h2.mpr hc
          simp [hg.2] at this
        omega
      simp [ChatInv, handleSummary, List.countP_append, h0, Request.isChat]
    · exact ⟨h1, h2⟩
  | clickClear confirmed =>
    simp only [step, handleClearHistory, stopSpeaking]
    cases confirmed <;> cases s.speechSupported <;>
      first
        | exact ⟨h1, h2⟩
        | (simp only [ChatInv, orUnchanged, speechCancel, List.countP_append,
            List.countP_cons, List.countP_nil, Request.isChat]
           exact ⟨by simpa using h1, by simpa using h2⟩)
  | selectFile files0 =>
    simp only [step]
    split
    · exact ⟨h1, h2⟩
    · cases files0 with
      | none => exact ⟨h1, h2⟩
      | some f =>
        simp only [ChatInv, handleFileChange, handleUpload, List.countP_append,
          List.countP_cons, List.countP_nil, Request.isChat]
        exact ⟨by simpa using h1, by simpa using h2⟩
  | clickDocument i =>
    simp only [step]
    split
    · exact ⟨h1, h2⟩
    · split <;> exact ⟨h1, h2⟩
  | clickStop =>
    simp only [step, stopSpeaking]
    cases s.isSpeaking <;> cases s.speechSupported <;> exact ⟨h1, h2⟩
  | clickSpeak index =>
    simp only [step]
    split
    · split
      · unfold speakText
        cases hs : s.speechSupported <;> exact ⟨h1, h2⟩
      · exact ⟨h1, h2⟩
    · exact ⟨h1, h2⟩
  | clickCopy index =>
    simp only [step]
    split
    · split
      · unfold handleCopy
        cases s.clipboardSupported <;> exact ⟨h1, h2⟩
      · exact ⟨h1, h2⟩
    · exact ⟨h1, h2⟩
  | typeQuestion value => exact ⟨h1, h2⟩
  | clickSend =>
    simp only [step]
    split
    · exact ⟨h1, h2⟩
    · rename_i hg
      simp only [Bool.or_eq_true, not_or, Bool.not_eq_true] at hg
      have h0 : s.inflight.countP Request.isChat = 0 := by
        have : ¬ s.inflight.countP Request.isChat = 1 := fun hc => by
          have := h2.mpr hc
          simp [hg.2] at this
        omega
      unfold handleAsk
      split
      · exact ⟨h1, h2⟩
      · cases truthy none <;>
          simp [ChatInv, List.countP_append, h0, Request.isChat]
  | settle i res =>
    simp only [step, settle]
    split
    · rename_i req hreq
      cases hr : resume { s with inflight := s.inflight.eraseIdx i } req res with
      | none => exact ⟨h1, h2⟩
      | some s1 =>
        obtain ⟨e1, e2⟩ := resume_chat _ _ _ _ hr
        have hc := countP_eraseIdx_add Request.isChat s.inflight i req hreq
        simp only [Option.getD_some, ChatInv, e1, e2]
        cases hq : req.isChat
        · simp only [hq, Bool.false_eq_true, if_false, Nat.add_zero] at hc ⊢
          rw [hc]
          exact ⟨h1, h2⟩
        · simp only [hq, if_true] at hc ⊢
          constructor
          · omega
          · simp only [Bool.false_eq_true, false_iff]
            omega
    · exact ⟨h1, h2⟩
  | utteranceStart =>
    simp only [step, utteranceStart]
    split
    · split <;> exact ⟨h1, h2⟩
    · exact ⟨h1, h2⟩
  | utteranceEnd =>
    simp only [step, utteranceEnd]
    split
    · split <;> exact ⟨h1, h2⟩
    · exact ⟨h1, h2⟩
  | utteranceError =>
    simp only [step, utteranceError]
    split <;> exact ⟨h1, h2⟩
  | cancelledUtteranceEnd =>
    simp only [step, cancelledUtteranceEnd]
    split <;> exact ⟨h1, h2⟩
  | advance t =>
    simp only [step, advance]
    split <;> exact ⟨h1, h2⟩

theorem run_chatInv (events : List Event) (s : State) (he : Event.pressEnter ∉ events)
    (h : ChatInv s) : ChatInv (run s events) := by
  induction events generalizing s with
  | nil => exact h
  | cons e rest ih =>
    simp only [List.mem_cons, not_or] at he
    exact ih (step s e) he.2 (step_chatInv s e (fun h => he.1 h.symm) h)

/-- Through the two buttons alone the property of C3 holds: in every state reached without
the Enter key, `thinking` is true exactly when a chat request is pending. -/
theorem thinking_iff_chatPending_without_enter (viteApiUrl : Option String)
    (speechSupported clipboardSupported : Bool) (events : List Event) (he : Event.pressEnter ∉ events) :
    (run (start viteApiUrl speechSupported clipboardSupported) events).thinking = true ↔
      chatPending (run (start viteApiUrl speechSupported clipboardSupported) events) = true := by
  have hinv : ChatInv (run (start viteApiUrl speechSupported clipboardSupported) events) :=
    run_chatInv events _ he
      ⟨by simp [start, mount, fetchDocuments, fetchHistory, init, Request.isChat],
       by simp [start, mount, fetchDocuments, fetchHistory, init, Request.isChat]⟩
  obtain ⟨h1, h2⟩ := hinv
  rw [h2]
  unfold chatPending
  rw [List.any_eq_true]
  constructor
  · intro hc
    have hpos : 0 < (run (start viteApiUrl speechSupported clipboardSupported) events).inflight.countP
        Request.isChat := by omega
    exact List.countP_pos_iff.mp hpos
  · intro hx
    have hpos := List.countP_pos_iff.mpr hx
    omega

/-- C3 fails on the code: the Enter key (line 291) calls `handleAsk` without looking at
`thinking`. After two questions sent with Enter, `thinking` is true with two queries
pending; when the first is answered `thinking` drops to false although the second query
is still pending. -/
theorem thinking_false_while_query_pending :
    enterPressedTwice.thinking = true ∧
    enterPressedTwice.inflight = [.history, .documents, .query "a", .query "b"] ∧
    firstQueryAnswered.thinking = false ∧
    firstQueryAnswered.inflight = [.history, .documents, .query "b"] ∧
    chatPending firstQueryAnswered = true ∧
    Reachable firstQueryAnswered := by
  refine ⟨by decide, by decide, by decide, by decide, by decide, ?_⟩
  exact ⟨none, true, true,
    [.typeQuestion "a", .pressEnter, .typeQuestion "b", .pressEnter,
     .settle 2 (.answer "x")], rfl⟩

/-! ## Non-empty conversation -/

theorem fetchHistory_resume_some_ne_nil (s : State) (history : List Message) :
    (fetchHistory_resume s (some history)).messages ≠ [] := by
  unfold fetchHistory_resume
  cases history with
  | nil => simp
  | cons m rest => simp

/-- An empty history seeds exactly the default greeting (line 38). -/
theorem fetchHistory_resume_empty (s : State) :
    (fetchHistory_resume s (some [])).messages =
      [⟨.ai, "Hello! Upload a PDF to start. I recall our past chats!"⟩] :=
  rfl

theorem resume_messages_ne_nil (s s1 : State) (req : Request) (res : Response)
    (h : resume s req res = some s1) (hm : s.messages ≠ []) : s1.messages ≠ [] := by
  cases req <;> cases res <;> simp [resume] at h <;> subst h <;>
    first
      | exact hm
      | exact fetchHistory_resume_some_ne_nil _ _
      | simp [handleUpload_resume, handleClearHistory_resume, fetchDocuments,
          handleAsk_resume, handleSummary_resume]

/-- No event turns a non-empty conversation into an empty one. -/
theorem step_messages_ne_nil (s : State) (e : Event) (h : s.messages ≠ []) :
    (step s e).messages ≠ [] := by
  cases e with
  | clickNew =>
    simp only [step, handleNewUpload, stopSpeaking]
    cases s.speechSupported
    · exact h
    · simp [orUnchanged]
  | clickSummary =>
    simp only [step]
    split
    · simp [handleSummary]
    · exact h
  | clickClear confirmed =>
    simp only [step, handleClearHistory, stopSpeaking]
    cases confirmed <;> cases s.speechSupported <;> exact h
  | selectFile files0 =>
    simp only [step]
    split
    · exact h
    · cases files0 <;> exact h
  | clickDocument i =>
    simp only [step]
    split
    · exact h
    · split
      · simp [loadOldFile]
      · exact h
  | clickStop =>
    simp only [step, stopSpeaking]
    cases s.isSpeaking <;> cases s.speechSupported <;> exact h
  | clickSpeak index =>
    simp only [step]
    split
    · split
      · unfold speakText
        cases hs : s.speechSupported <;> exact h
      · exact h
    · exact h
  | clickCopy index =>
    simp only [step]
    split
    · split
      · unfold handleCopy
        cases s.clipboardSupported <;> exact h
      · exact h
    · exact h
  | typeQuestion value => exact h
  | pressEnter =>
    simp only [step, handleAsk]
    split
    · exact h
    · cases truthy none
      · simp
      · exact h
  | clickSend =>
    simp only [step, handleAsk]
    split
    · exact h
    · split
      · exact h
      · cases truthy none
        · simp
        · exact h
  | settle i res =>
    simp only [step, settle]
    split
    · rename_i req _
      cases hr : resume { s with inflight := s.inflight.eraseIdx i } req res with
      | none => exact h
      | some s1 => exact resume_messages_ne_nil _ _ _ _ hr h
    · exact h
  | utteranceStart =>
    simp only [step, utteranceStart]
    split
    · split <;> exact h
    · exact h
  | utteranceEnd =>
    simp only [step, utteranceEnd]
    split
    · split <;> exact h
    · exact h
  | utteranceError =>
    simp only [step, utteranceError]
    split <;> exact h
  | cancelledUtteranceEnd =>
    simp only [step, cancelledUtteranceEnd]
    split <;> exact h
  | advance t =>
    simp only [step, advance]
    split <;> exact h

/-- C5 fails on the code: when the history request fails, the `catch` branch (line 40)
only logs, so once the startup history load has finished the conversation is still the
initial empty list (line 18), not the default greeting that the sibling branch on
line 38 seeds for an empty history. -/
theorem history_failure_leaves_conversation_empty :
    historyFailed.messages = [] ∧
    historyFailed.inflight = [.documents] ∧
    historyFailed.consoleErrors = ["History Error"] ∧
    Reachable historyFailed := by
  refine ⟨by decide, by decide, by decide, ?_⟩
  exact ⟨none, true, true, [.settle 0 .error], rfl⟩

end App
